import Mathlib

/-!
Verification of the real-time messaging core of the careerly backend
(`server.js` socket handlers, `models/Conversation.js`, and the chat REST
routes), as a shallow embedding: handlers are pure functions from an explicit
chat state and inbound payload to a new state plus a list of outbound effects.
-/

namespace Careerly

/-- Public identity snapshot of a user, as attached to a socket after
authentication (`socket.user`, with secret fields stripped). -/
structure User where
  id : String
  name : String
  profilePicture : String
deriving DecidableEq, Repr

/-- Modelled from the spec: the Message document schema
(`models/Message.js` is required by `server.js` but absent from the sources).
Per the spec a Message carries an owning conversation ID, a sender user ID, a
trimmed text body, a read flag that defaults to false at creation, an optional
read timestamp, and a creation timestamp. Timestamps are modelled as `Nat`. -/
structure Message where
  id : Nat
  conversation : Nat
  sender : String
  text : String
  read : Bool
  readAt : Option Nat
  createdAt : Nat
deriving DecidableEq, Repr

/-- Conversation document (`models/Conversation.js`): participant user IDs,
pointer to the most recent message, and the last-activity timestamp. -/
structure Conversation where
  id : Nat
  participants : List String
  lastMessage : Option Nat
  lastMessageAt : Nat
deriving DecidableEq, Repr

/-- One entry of the `activeUsers` map in `server.js`: the socket ID and the
connected user's ID (`entry.user._id.toString()`, which coincides with the
map key). -/
structure PresenceEntry where
  socketId : Nat
  userId : String
deriving DecidableEq, Repr

/-- The document store state the socket handlers read and write. -/
structure ChatState where
  conversations : List Conversation
  messages : List Message
  nextMessageId : Nat
deriving DecidableEq, Repr

/-- Outbound socket emissions produced by a handler.
`errorEvent` goes to the originating connection only
(`socket.emit`); the others are room broadcasts (`io.to(room).emit` or
`socket.to(room).emit`). -/
inductive Effect where
  | errorEvent (message : String)
  | newMessage (room : String) (msg : Message)
  | notification (room : String) (conversationId : Nat) (msg : Message)
      (senderId : String)
  | messagesRead (room : String) (conversationId : Nat) (userId : String)
deriving DecidableEq, Repr

/-- Room key for a conversation room (`conversation-${conversationId}`). -/
def convRoom (cid : Nat) : String := "conversation-" ++ toString cid

/-- Room key for a user's personal room (`user-${userId}`). -/
def userRoom (uid : String) : String := "user-" ++ uid

/-- `Conversation.findById`: first stored conversation with the given ID. -/
def findById (convs : List Conversation) (cid : Nat) : Option Conversation :=
  convs.find? (fun c => c.id = cid)

/-- Inbound `send-message` payload `{conversationId, text, receiverId}`;
`text` is optional because the client may omit it (`!text` in the guard). -/
structure SendPayload where
  conversationId : Nat
  text : Option String
  receiverId : String
deriving DecidableEq, Repr

/-- Model of `String.prototype.trim`: drop leading and trailing whitespace
characters from the text. Defined over the character list so it is fully
executable. -/
def trimText (s : String) : String :=
  String.mk
    (((s.data.dropWhile Char.isWhitespace).reverse.dropWhile Char.isWhitespace).reverse)

/-- The validation guard `!text || !text.trim()` of the send-message
handler: true when the text is missing, empty, or whitespace-only. -/
def textInvalid : Option String → Bool
  | none => true
  | some t => trimText t = ""

/-- The `send-message` handler of `server.js` (lines 217-260): validate the
text, authorize the sender against the conversation, persist the message,
update the conversation's last-message metadata, and emit the broadcasts.
`uid` is `socket.userId`; `now` is the current time used both for the
message's creation timestamp and for `lastMessageAt`. -/
def sendMessage (st : ChatState) (activeUsers : List PresenceEntry)
    (uid : String) (d : SendPayload) (now : Nat) : ChatState × List Effect :=
  if textInvalid d.text then
    (st, [Effect.errorEvent "Message text is required"])
  else
    match findById st.conversations d.conversationId with
    | none => (st, [Effect.errorEvent "Conversation not found or access denied"])
    | some conversation =>
      if uid ∈ conversation.participants then
        let message : Message :=
          { id := st.nextMessageId
            conversation := d.conversationId
            sender := uid
            text := trimText (d.text.getD "")
            read := false
            readAt := none
            createdAt := now }
        let conversation' : Conversation :=
          { conversation with lastMessage := some message.id, lastMessageAt := now }
        let st' : ChatState :=
          { conversations :=
              st.conversations.map (fun c => if c.id = conversation.id then conversation' else c)
            messages := st.messages ++ [message]
            nextMessageId := st.nextMessageId + 1 }
        let notif : List Effect :=
          if activeUsers.any (fun u => u.userId = d.receiverId) then
            [Effect.notification (userRoom d.receiverId) d.conversationId message uid]
          else []
        (st', Effect.newMessage (convRoom d.conversationId) message :: notif)
      else (st, [Effect.errorEvent "Conversation not found or access denied"])

/-- The per-message update applied by the `mark-read` handler's
`Message.updateMany` filter and update: messages of the conversation whose
sender differs from the requester and whose read flag is false become read
with `readAt = now`; all other messages are untouched. -/
def markReadUpdate (uid : String) (cid : Nat) (now : Nat) (m : Message) : Message :=
  if m.conversation = cid ∧ m.sender ≠ uid ∧ m.read = false then
    { m with read := true, readAt := some now }
  else m

/-- The `mark-read` handler of `server.js` (lines 278-305): silently no-op
unless the conversation exists and the requester is a participant; otherwise
bulk-update the unread messages of the other sender and broadcast
`messages-read` to the conversation room (excluding the requester). -/
def markRead (st : ChatState) (uid : String) (cid : Nat) (now : Nat) :
    ChatState × List Effect :=
  match findById st.conversations cid with
  | none => (st, [])
  | some conversation =>
    if uid ∈ conversation.participants then
      ({ st with messages := st.messages.map (markReadUpdate uid cid now) },
       [Effect.messagesRead (convRoom cid) cid uid])
    else (st, [])

/-- The canonicalized participant pair `[userId1, userId2].sort()` used by
`Conversation.findOrCreate` (JS default sort: lexicographic on strings). -/
def sortPair (a b : String) : List String :=
  if a ≤ b then [a, b] else [b, a]

/-- `Conversation.findOrCreate` (`models/Conversation.js` lines 22-35):
look up a conversation whose participants equal the sorted pair; create one
when none exists. Returns the conversation together with the updated store
and next fresh ID. `now` models the `Date.now` default of `lastMessageAt`. -/
def findOrCreate (convs : List Conversation) (nextId : Nat) (now : Nat)
    (a b : String) : Conversation × List Conversation × Nat :=
  let participants := sortPair a b
  match convs.find? (fun c => c.participants = participants) with
  | some conversation => (conversation, convs, nextId)
  | none =>
    let conversation : Conversation :=
      { id := nextId, participants := participants, lastMessage := none,
        lastMessageAt := now }
    (conversation, convs ++ [conversation], nextId + 1)

/-- The socket authentication middleware of `server.js` (lines 162-183).
`verify` models `jwt.verify` (`none` when verification throws), and
`findUser` models `User.findById` returning `null` for a deleted user.
The `Except.error` string is the message the client receives in
`connect_error`. -/
def authenticateSocket (token : Option String) (verify : String → Option String)
    (findUser : String → Option User) : Except String User :=
  match token with
  | none => Except.error "Authentication error: No token provided"
  | some t =>
    match verify t with
    | none => Except.error "Authentication error: Invalid token"
    | some uid =>
      match findUser uid with
      | none => Except.error "Authentication error: User not found"
      | some u => Except.ok u

/-- Insert a message into a list sorted by ascending creation timestamp. -/
def insertByCreatedAt (m : Message) : List Message → List Message
  | [] => [m]
  | x :: xs =>
    if m.createdAt ≤ x.createdAt then m :: x :: xs else x :: insertByCreatedAt m xs

/-- Stable ascending sort by creation timestamp, modelling the store's
`sort(createdAt ascending)`. -/
def sortByCreatedAt (l : List Message) : List Message :=
  l.foldr insertByCreatedAt []

/-- The REST message-history read
`GET /conversations/:conversationId/messages` (chat routes): filter the
conversation's messages, sort ascending by creation time, then apply
`limit(100)` — which takes the first 100 of the ascending order. -/
def getConversationMessages (messages : List Message) (cid : Nat) : List Message :=
  (sortByCreatedAt (messages.filter (fun m => m.conversation = cid))).take 100

/-- The message document constructed by a successful send (trimmed text,
sender = connection's user, conversation = the payload's ID, read = false,
created at the current time, with the next fresh ID). -/
def sentMessage (st : ChatState) (uid : String) (d : SendPayload) (now : Nat) :
    Message :=
  { id := st.nextMessageId
    conversation := d.conversationId
    sender := uid
    text := trimText (d.text.getD "")
    read := false
    readAt := none
    createdAt := now }

/-- Test fixture: a conversation between alice and bob. -/
def convAB : Conversation :=
  { id := 1, participants := ["u-alice", "u-bob"], lastMessage := none,
    lastMessageAt := 0 }

/-- Test fixture: a store holding only the alice-bob conversation. -/
def stAB : ChatState :=
  { conversations := [convAB], messages := [], nextMessageId := 0 }

/-- Test fixture: a valid send payload addressed to bob. -/
def payloadToBob : SendPayload :=
  { conversationId := 1, text := some " hi there ", receiverId := "u-bob" }

/-- Test fixture: a valid send payload whose receiver is carol, who is not a
participant of the conversation. -/
def payloadToCarol : SendPayload :=
  { conversationId := 1, text := some "hi", receiverId := "u-carol" }

/-! ### Helper lemmas -/

/-- Appending a single matching element to a list on which `find?` fails makes
`find?` return that element. -/
theorem find_append_singleton {α : Type} (p : α → Bool) (l : List α) (x : α)
    (h : l.find? p = none) (hx : p x = true) :
    (l ++ [x]).find? p = some x := by
  rw [List.find?_append, h, List.find?_cons_of_pos _ hx]
  rfl

/-- Replacing (by ID) the conversation that `findById` returns makes a
subsequent `findById` return the replacement, provided the replacement keeps
the ID. -/
theorem findById_map_update (convs : List Conversation) (cid : Nat)
    (conv conv' : Conversation)
    (hfind : findById convs cid = some conv)
    (hid : conv'.id = conv.id) :
    findById (convs.map fun c => if c.id = conv.id then conv' else c) cid
      = some conv' := by
  unfold findById at hfind ⊢
  have hcid : conv.id = cid := by simpa using List.find?_some hfind
  revert hfind
  induction convs with
  | nil => intro hfind; cases hfind
  | cons c cs ih =>
    intro hfind
    by_cases h : c.id = cid
    · have hceq : c = conv := by simpa [List.find?, h] using hfind
      subst hceq
      simp [List.find?, hid, hcid]
    · have hfind2 : List.find? (fun x => decide (x.id = cid)) cs = some conv := by
        simpa [List.find?, h] using hfind
      have hne : ¬ c.id = conv.id := fun he => h (he.trans hcid)
      simpa [List.find?, hne, h] using ih hfind2

/-- The canonicalized participant pair does not depend on argument order. -/
theorem sortPair_comm (a b : String) : sortPair a b = sortPair b a := by
  unfold sortPair
  rcases le_total a b with h | h
  · by_cases h2 : b ≤ a
    · have hab : a = b := le_antisymm h h2
      subst hab; simp
    · rw [if_pos h, if_neg h2]
  · by_cases h2 : a ≤ b
    · have hab : a = b := le_antisymm h2 h
      subst hab; simp
    · rw [if_neg h2, if_pos h]

/-- Characterization of a successful send: with valid text and an authorized
sender, the handler returns exactly the updated store (message appended,
conversation metadata refreshed) and the broadcast effects. -/
theorem sendMessage_success (st : ChatState) (au : List PresenceEntry)
    (uid : String) (d : SendPayload) (now : Nat) (t : String) (conv : Conversation)
    (ht : d.text = some t) (htn : ¬ trimText t = "")
    (hc : findById st.conversations d.conversationId = some conv)
    (hp : uid ∈ conv.participants) :
    sendMessage st au uid d now =
      ({ conversations :=
           st.conversations.map (fun c => if c.id = conv.id then
             { conv with lastMessage := some st.nextMessageId, lastMessageAt := now }
           else c)
         messages := st.messages ++ [sentMessage st uid d now]
         nextMessageId := st.nextMessageId + 1 },
       Effect.newMessage (convRoom d.conversationId) (sentMessage st uid d now) ::
         (if au.any (fun u => u.userId = d.receiverId) then
            [Effect.notification (userRoom d.receiverId) d.conversationId
              (sentMessage st uid d now) uid]
          else [])) := by
  have hv : textInvalid d.text = false := by
    rw [ht]; unfold textInvalid; exact decide_eq_false htn
  unfold sendMessage
  rw [if_neg (by rw [hv]; exact Bool.false_ne_true), hc]
  exact if_pos hp

/-! ### Claim theorems -/

/-- Claim C3: a send-message whose text is missing, empty, or whitespace-only
persists nothing, changes no conversation state, and emits exactly one error
event (the text-required validation error) to the originating connection;
no disconnect effect is produced, so the connection remains open. -/
theorem send_blank_text_rejected (st : ChatState) (au : List PresenceEntry)
    (uid : String) (d : SendPayload) (now : Nat)
    (h : d.text = none ∨ ∃ t, d.text = some t ∧ trimText t = "") :
    sendMessage st au uid d now = (st, [Effect.errorEvent "Message text is required"]) := by
  have hv : textInvalid d.text = true := by
    rcases h with h | ⟨t, ht, htt⟩
    · rw [h]; rfl
    · rw [ht]; unfold textInvalid; exact decide_eq_true htt
  unfold sendMessage
  rw [if_pos hv]

/-- Witness for C3 at a whitespace-only text payload. -/
theorem send_blank_text_rejected_witness :
    trimText "   " = "" ∧
    sendMessage { conversations := [], messages := [], nextMessageId := 0 } []
        "u-alice" { conversationId := 1, text := some "   ", receiverId := "u-bob" } 5
      = ({ conversations := [], messages := [], nextMessageId := 0 },
         [Effect.errorEvent "Message text is required"]) :=
  ⟨by decide,
   send_blank_text_rejected _ [] "u-alice" _ 5 (Or.inr ⟨"   ", rfl, by decide⟩)⟩

/-- Claim C4: a send-message for a missing conversation, or for an existing
conversation that the sender does not participate in, persists nothing and
yields the identical single error event in both cases — the client cannot
distinguish the two causes. -/
theorem send_unauthorized_rejected (st : ChatState) (au : List PresenceEntry)
    (uid : String) (d : SendPayload) (now : Nat) (t : String)
    (ht : d.text = some t) (htn : ¬ trimText t = "")
    (h : findById st.conversations d.conversationId = none ∨
         ∃ conv, findById st.conversations d.conversationId = some conv ∧
           uid ∉ conv.participants) :
    sendMessage st au uid d now
      = (st, [Effect.errorEvent "Conversation not found or access denied"]) := by
  have hv : textInvalid d.text = false := by
    rw [ht]; unfold textInvalid; exact decide_eq_false htn
  unfold sendMessage
  rw [if_neg (by rw [hv]; exact Bool.false_ne_true)]
  rcases h with h | ⟨conv, hc, hp⟩
  · rw [h]
  · rw [hc]
    exact if_neg hp

/-- Witness for C4: the conversation exists but the sender is an outsider. -/
theorem send_unauthorized_rejected_witness :
    trimText "hi" ≠ "" ∧
    sendMessage
        { conversations :=
            [{ id := 1, participants := ["u-alice", "u-bob"], lastMessage := none,
               lastMessageAt := 0 }],
          messages := [], nextMessageId := 0 } []
        "u-eve" { conversationId := 1, text := some "hi", receiverId := "u-bob" } 5
      = ({ conversations :=
             [{ id := 1, participants := ["u-alice", "u-bob"], lastMessage := none,
                lastMessageAt := 0 }],
           messages := [], nextMessageId := 0 },
         [Effect.errorEvent "Conversation not found or access denied"]) :=
  ⟨by decide,
   send_unauthorized_rejected _ [] "u-eve" _ 5 "hi" rfl (by decide)
     (Or.inr ⟨_, rfl, by decide⟩)⟩

/-- Claim C6: a mark-read for a missing conversation or from a non-participant
is a silent no-op — the state (every message's read flag and readAt) is
unchanged and no effect at all (neither an error nor a messages-read
broadcast) is emitted. -/
theorem mark_read_noop (st : ChatState) (uid : String) (cid now : Nat)
    (h : findById st.conversations cid = none ∨
         ∃ conv, findById st.conversations cid = some conv ∧
           uid ∉ conv.participants) :
    markRead st uid cid now = (st, []) := by
  unfold markRead
  rcases h with h | ⟨conv, hc, hp⟩
  · rw [h]
  · rw [hc]
    exact if_neg hp

/-- Witness for C6: a non-participant requester leaves an unread message of
the conversation untouched and triggers no broadcast. -/
theorem mark_read_noop_witness :
    ("u-eve" : String) ∉ ["u-alice", "u-bob"] ∧
    markRead
        { conversations :=
            [{ id := 1, participants := ["u-alice", "u-bob"], lastMessage := none,
               lastMessageAt := 0 }],
          messages :=
            [{ id := 0, conversation := 1, sender := "u-alice", text := "hi",
               read := false, readAt := none, createdAt := 3 }],
          nextMessageId := 1 } "u-eve" 1 9
      = ({ conversations :=
             [{ id := 1, participants := ["u-alice", "u-bob"], lastMessage := none,
                lastMessageAt := 0 }],
           messages :=
             [{ id := 0, conversation := 1, sender := "u-alice", text := "hi",
                read := false, readAt := none, createdAt := 3 }],
           nextMessageId := 1 }, []) :=
  ⟨by decide, mark_read_noop _ "u-eve" 1 9 (Or.inr ⟨_, rfl, by decide⟩)⟩

/-- Claim C7: for distinct user IDs the find-or-create operation is
order-insensitive and idempotent — after a first call with (a, b), a second
call with (b, a) or with (a, b) returns the same conversation. -/
theorem findOrCreate_canonical (convs : List Conversation) (n now1 now2 : Nat)
    (a b : String) (_hab : a ≠ b) :
    ((findOrCreate (findOrCreate convs n now1 a b).2.1
        (findOrCreate convs n now1 a b).2.2 now2 b a).1
      = (findOrCreate convs n now1 a b).1) ∧
    ((findOrCreate (findOrCreate convs n now1 a b).2.1
        (findOrCreate convs n now1 a b).2.2 now2 a b).1
      = (findOrCreate convs n now1 a b).1) := by
  unfold findOrCreate
  rw [sortPair_comm b a]
  cases hf : convs.find? (fun c => c.participants = sortPair a b) with
  | some conversation => simp [hf]
  | none =>
    simp only [hf]
    have hx : (fun c : Conversation => decide (c.participants = sortPair a b))
        ({ id := n, participants := sortPair a b, lastMessage := none,
           lastMessageAt := now1 } : Conversation) = true := by
      exact decide_eq_true rfl
    rw [find_append_singleton _ _ _ hf hx]
    exact ⟨rfl, rfl⟩

/-- Witness for C7 on two concrete distinct IDs, exercised in both orders. -/
theorem findOrCreate_canonical_witness :
    ("u-bob" : String) ≠ "u-alice" ∧
    (((findOrCreate (findOrCreate [] 0 1 "u-bob" "u-alice").2.1
         (findOrCreate [] 0 1 "u-bob" "u-alice").2.2 2 "u-alice" "u-bob").1
       = (findOrCreate [] 0 1 "u-bob" "u-alice").1) ∧
     ((findOrCreate (findOrCreate [] 0 1 "u-bob" "u-alice").2.1
         (findOrCreate [] 0 1 "u-bob" "u-alice").2.2 2 "u-bob" "u-alice").1
       = (findOrCreate [] 0 1 "u-bob" "u-alice").1)) :=
  ⟨by decide, findOrCreate_canonical [] 0 1 2 "u-bob" "u-alice" (by decide)⟩

/-- Claim C1: a send-message that passes validation and authorization appends
exactly one Message whose text is the trimmed payload text, whose sender is
the connection's user ID, whose conversation is the given ID and whose read
flag is false; afterwards the conversation's lastMessage points at that
message's ID and its lastMessageAt equals the current time. -/
theorem send_message_persists (st : ChatState) (au : List PresenceEntry)
    (uid : String) (d : SendPayload) (now : Nat) (t : String) (conv : Conversation)
    (ht : d.text = some t) (htn : ¬ trimText t = "")
    (hc : findById st.conversations d.conversationId = some conv)
    (hp : uid ∈ conv.participants) :
    ∃ m : Message,
      (sendMessage st au uid d now).1.messages = st.messages ++ [m] ∧
      m.text = trimText t ∧ m.sender = uid ∧
      m.conversation = d.conversationId ∧ m.read = false ∧
      ∃ c2 : Conversation,
        findById (sendMessage st au uid d now).1.conversations d.conversationId
            = some c2 ∧
          c2.lastMessage = some m.id ∧ c2.lastMessageAt = now := by
  rw [sendMessage_success st au uid d now t conv ht htn hc hp]
  refine ⟨sentMessage st uid d now, rfl, ?_, rfl, rfl, rfl, ?_⟩
  · unfold sentMessage
    rw [ht]
    rfl
  · exact ⟨_, findById_map_update st.conversations d.conversationId conv _ hc rfl,
      rfl, rfl⟩

/-- Witness for C1 on a concrete authorized send with padded text. -/
theorem send_message_persists_witness :
    ("u-alice" : String) ∈ convAB.participants ∧
    (∃ m : Message,
      (sendMessage stAB [] "u-alice" payloadToBob 7).1.messages
          = stAB.messages ++ [m] ∧
      m.text = trimText " hi there " ∧ m.sender = "u-alice" ∧
      m.conversation = payloadToBob.conversationId ∧ m.read = false ∧
      ∃ c2 : Conversation,
        findById (sendMessage stAB [] "u-alice" payloadToBob 7).1.conversations
            payloadToBob.conversationId = some c2 ∧
          c2.lastMessage = some m.id ∧ c2.lastMessageAt = 7) :=
  ⟨by decide,
   send_message_persists stAB [] "u-alice" payloadToBob 7 " hi there " convAB
     rfl (by decide) rfl (by decide)⟩

/-- Claim C2: after a successful send, the new-message broadcast to the
conversation room is always among the emitted effects, and the
message-notification to the receiver's personal room is emitted exactly when
the presence registry holds an entry for the payload's receiverId — room
membership plays no role in either emission. -/
theorem send_message_notification_presence (st : ChatState)
    (au : List PresenceEntry) (uid : String) (d : SendPayload) (now : Nat)
    (t : String) (conv : Conversation)
    (ht : d.text = some t) (htn : ¬ trimText t = "")
    (hc : findById st.conversations d.conversationId = some conv)
    (hp : uid ∈ conv.participants) :
    Effect.newMessage (convRoom d.conversationId) (sentMessage st uid d now)
        ∈ (sendMessage st au uid d now).2 ∧
    (Effect.notification (userRoom d.receiverId) d.conversationId
          (sentMessage st uid d now) uid ∈ (sendMessage st au uid d now).2
      ↔ ∃ e ∈ au, e.userId = d.receiverId) := by
  rw [sendMessage_success st au uid d now t conv ht htn hc hp]
  constructor
  · exact List.mem_cons_self _ _
  · cases hany : au.any (fun u => u.userId = d.receiverId) with
    | true =>
      constructor
      · intro _
        simpa using List.any_eq_true.mp hany
      · intro _
        simp [hany]
    | false =>
      constructor
      · intro hmem
        simp [hany] at hmem
      · rintro ⟨e, he, hid2⟩
        have : au.any (fun u => u.userId = d.receiverId) = true :=
          List.any_eq_true.mpr ⟨e, he, decide_eq_true hid2⟩
        rw [hany] at this
        cases this

/-- Witness for C2: bob has a presence entry, so the notification to his
personal room accompanies the conversation-room broadcast. -/
theorem send_message_notification_presence_witness :
    ("u-alice" : String) ∈ convAB.participants ∧
    (Effect.newMessage (convRoom payloadToBob.conversationId)
          (sentMessage stAB "u-alice" payloadToBob 7)
        ∈ (sendMessage stAB [⟨3, "u-bob"⟩] "u-alice" payloadToBob 7).2 ∧
     (Effect.notification (userRoom payloadToBob.receiverId)
           payloadToBob.conversationId (sentMessage stAB "u-alice" payloadToBob 7)
           "u-alice"
         ∈ (sendMessage stAB [⟨3, "u-bob"⟩] "u-alice" payloadToBob 7).2
       ↔ ∃ e ∈ [(⟨3, "u-bob"⟩ : PresenceEntry)],
           e.userId = payloadToBob.receiverId)) :=
  ⟨by decide,
   send_message_notification_presence stAB [⟨3, "u-bob"⟩] "u-alice" payloadToBob
     7 " hi there " convAB rfl (by decide) rfl (by decide)⟩

/-- Claim C5: a mark-read by a participant transitions exactly the unread
messages of that conversation authored by someone else to read with
readAt = now, leaving the requester's own messages, already-read messages,
and other conversations' messages unchanged (stated positionally via
Forall₂ over the before/after message lists). -/
theorem mark_read_transitions (st : ChatState) (uid : String) (cid now : Nat)
    (conv : Conversation)
    (hc : findById st.conversations cid = some conv)
    (hp : uid ∈ conv.participants) :
    List.Forall₂ (fun m m' : Message =>
        (m.conversation = cid ∧ m.sender ≠ uid ∧ m.read = false →
          m' = { m with read := true, readAt := some now }) ∧
        (¬ (m.conversation = cid ∧ m.sender ≠ uid ∧ m.read = false) → m' = m))
      st.messages (markRead st uid cid now).1.messages := by
  unfold markRead
  rw [hc]
  have hres :
      ((if uid ∈ conv.participants then
          ({ st with messages := st.messages.map (markReadUpdate uid cid now) },
           [Effect.messagesRead (convRoom cid) cid uid])
        else (st, [])) : ChatState × List Effect).1.messages
        = st.messages.map (markReadUpdate uid cid now) := by
    rw [if_pos hp]
  rw [hres]
  refine List.forall₂_map_right_iff.mpr (List.forall₂_same.mpr ?_)
  intro m _
  constructor
  · intro h
    unfold markReadUpdate
    rw [if_pos h]
  · intro h
    unfold markReadUpdate
    rw [if_neg h]

/-- Witness for C5 on a four-message store: only bob's unread message of the
conversation flips to read; alice's own message, bob's already-read message,
and a message of another conversation stay as they were. -/
theorem mark_read_transitions_witness :
    ("u-alice" : String) ∈ convAB.participants ∧
    List.Forall₂ (fun m m' : Message =>
        (m.conversation = 1 ∧ m.sender ≠ "u-alice" ∧ m.read = false →
          m' = { m with read := true, readAt := some 9 }) ∧
        (¬ (m.conversation = 1 ∧ m.sender ≠ "u-alice" ∧ m.read = false) → m' = m))
      ({ conversations := [convAB],
         messages :=
           [{ id := 0, conversation := 1, sender := "u-bob", text := "a",
              read := false, readAt := none, createdAt := 1 },
            { id := 1, conversation := 1, sender := "u-alice", text := "b",
              read := false, readAt := none, createdAt := 2 },
            { id := 2, conversation := 1, sender := "u-bob", text := "c",
              read := true, readAt := some 3, createdAt := 3 },
            { id := 3, conversation := 2, sender := "u-bob", text := "d",
              read := false, readAt := none, createdAt := 4 }],
         nextMessageId := 4 } : ChatState).messages
      (markRead
        { conversations := [convAB],
          messages :=
            [{ id := 0, conversation := 1, sender := "u-bob", text := "a",
               read := false, readAt := none, createdAt := 1 },
             { id := 1, conversation := 1, sender := "u-alice", text := "b",
               read := false, readAt := none, createdAt := 2 },
             { id := 2, conversation := 1, sender := "u-bob", text := "c",
               read := true, readAt := some 3, createdAt := 3 },
             { id := 3, conversation := 2, sender := "u-bob", text := "d",
               read := false, readAt := none, createdAt := 4 }],
          nextMessageId := 4 } "u-alice" 1 9).1.messages :=
  ⟨by decide, mark_read_transitions _ "u-alice" 1 9 convAB rfl (by decide)⟩

/-- Claim C8 counterexample: two connection attempts that differ only in the
failure cause — an unverifiable token versus a verified token whose user no
longer exists — produce different client-visible error messages, so the
failure exposed to the client is not identical across the two causes. -/
theorem auth_error_messages_differ :
    authenticateSocket (some "tok") (fun _ => none)
        (fun _ => some { id := "u-ghost", name := "Ghost", profilePicture := "" })
        = Except.error "Authentication error: Invalid token" ∧
    authenticateSocket (some "tok") (fun _ => some "u-ghost") (fun _ => none)
        = Except.error "Authentication error: User not found" ∧
    ("Authentication error: Invalid token" : String)
        ≠ "Authentication error: User not found" :=
  ⟨rfl, rfl, by decide⟩

/-- Claim C8 as amended: every failing connection-open attempt is rejected
with an error whose message is one of the three authentication failure
messages (all sharing the "Authentication error" prefix), but the message
text does distinguish the missing-token, bad-token and user-deleted causes. -/
theorem auth_failure_messages (token : Option String)
    (verify : String → Option String) (findUser : String → Option User)
    (e : String)
    (h : authenticateSocket token verify findUser = Except.error e) :
    e = "Authentication error: No token provided" ∨
    e = "Authentication error: Invalid token" ∨
    e = "Authentication error: User not found" := by
  cases token with
  | none =>
    simp only [authenticateSocket, Except.error.injEq] at h
    exact Or.inl h.symm
  | some t =>
    simp only [authenticateSocket] at h
    cases hv : verify t with
    | none =>
      simp only [hv, Except.error.injEq] at h
      exact Or.inr (Or.inl h.symm)
    | some uid =>
      simp only [hv] at h
      cases hu : findUser uid with
      | none =>
        simp only [hu, Except.error.injEq] at h
        exact Or.inr (Or.inr h.symm)
      | some u =>
        simp only [hu] at h
        cases h

/-- Witness for the amended C8 at the missing-token input. -/
theorem auth_failure_messages_witness :
    authenticateSocket none (fun _ => none) (fun _ => none)
        = Except.error "Authentication error: No token provided" ∧
    (("Authentication error: No token provided" : String)
        = "Authentication error: No token provided" ∨
     ("Authentication error: No token provided" : String)
        = "Authentication error: Invalid token" ∨
     ("Authentication error: No token provided" : String)
        = "Authentication error: User not found") :=
  ⟨rfl, auth_failure_messages none (fun _ => none) (fun _ => none) _ rfl⟩

/-- Test fixture: a conversation with 101 messages created at times 0..100. -/
def historyFixture : List Message :=
  (List.range 101).map (fun i =>
    { id := i, conversation := 1, sender := "u-alice", text := "hello",
      read := false, readAt := none, createdAt := i })

/-- Claim C9 (code bug): on a conversation holding 101 messages the REST
history read returns 100 messages, but every returned message has a creation
time below 100 — the newest message (createdAt = 100), although present in
the store, is dropped. The route keeps the FIRST 100 of the ascending order
(the oldest), not the last 100 as its own comment and the spec state. -/
theorem history_returns_oldest_not_newest :
    (getConversationMessages historyFixture 1).length = 100 ∧
    (∀ m ∈ getConversationMessages historyFixture 1, m.createdAt < 100) ∧
    (∃ m ∈ historyFixture, m.conversation = 1 ∧ m.createdAt = 100) := by
  refine ⟨by decide, by decide, by decide⟩

/-- Claim C10: the send-message handler never checks the payload's receiverId
against the conversation's participants — whenever the send passes validation
and authorization and any presence entry matches the client-supplied
receiverId, the message-notification is emitted to that user's personal room.
No hypothesis relates the receiver to the conversation. -/
theorem send_message_notifies_unchecked_receiver (st : ChatState)
    (au : List PresenceEntry) (uid : String) (d : SendPayload) (now : Nat)
    (t : String) (conv : Conversation) (e : PresenceEntry)
    (ht : d.text = some t) (htn : ¬ trimText t = "")
    (hc : findById st.conversations d.conversationId = some conv)
    (hp : uid ∈ conv.participants)
    (he : e ∈ au) (hid2 : e.userId = d.receiverId) :
    Effect.notification (userRoom d.receiverId) d.conversationId
        (sentMessage st uid d now) uid ∈ (sendMessage st au uid d now).2 := by
  rw [sendMessage_success st au uid d now t conv ht htn hc hp]
  have hany : au.any (fun u => u.userId = d.receiverId) = true :=
    List.any_eq_true.mpr ⟨e, he, decide_eq_true hid2⟩
  simp [hany]

/-- Witness for C10: carol is NOT a participant of the conversation, yet her
presence entry suffices for the notification to her personal room. -/
theorem send_message_notifies_unchecked_receiver_witness :
    ("u-carol" : String) ∉ convAB.participants ∧
    Effect.notification (userRoom "u-carol") payloadToCarol.conversationId
        (sentMessage stAB "u-alice" payloadToCarol 7) "u-alice"
      ∈ (sendMessage stAB [⟨9, "u-carol"⟩] "u-alice" payloadToCarol 7).2 :=
  ⟨by decide,
   send_message_notifies_unchecked_receiver stAB [⟨9, "u-carol"⟩] "u-alice"
     payloadToCarol 7 "hi" convAB ⟨9, "u-carol"⟩ rfl (by decide) rfl (by decide)
     (by simp) rfl⟩

end Careerly
